import Mathlib

/-!
Verification development for the cmdstanpy variational-inference
documentation notebook (`docs/notebooks/Variational Inference.ipynb`).

The repository content is a notebook that calls into the cmdstanpy client
binding (`CmdStanModel.variational`, `CmdStanVB`) and into the external
CmdStan engine; neither is present in the repository source tree, so those
parts are modelled from the specification text.  The notebook cells
themselves are embedded as a small Python fragment with explicit
environments, name-resolution errors and sequential statement execution.
-/

set_option autoImplicit false

/-- Modelled from the spec: the runtime error raised by the invoking call
when the external algorithm fails to converge to an adequate approximation
(spec, section 7).  The concrete class `RuntimeError` is named in the
notebook; its implementation is not in the repository. -/
structure RuntimeError where
  message : String
deriving DecidableEq, Repr

/-- Modelled from the spec: one run of the external inference engine, which
is opaque to the material under review.  The engine reports whether the
algorithm converged, and its output format determines the column layout:
internal bookkeeping columns followed by the model parameter names, with one
numeric estimate per output column and a matrix of draws from the
approximate posterior (spec, sections 3 and 7). -/
structure EngineOutput where
  converged : Bool
  bookkeeping_columns : List String
  parameter_names : List String
  estimates : List Rat
  draws : List (List Rat)
deriving DecidableEq, Repr

/-- The ordered output column names, in the order fixed by the external
engine output format: bookkeeping columns, then parameter names. -/
def EngineOutput.header (o : EngineOutput) : List String :=
  o.bookkeeping_columns ++ o.parameter_names

/-- Modelled from the spec: the result object `CmdStanVB` returned by a
successful variational call, exposing an ordered sequence of output column
names, the estimated means aligned with those columns, and the sample
matrix (spec, section 3).  The class itself lives in the cmdstanpy package
and is absent from the repository source. -/
structure CmdStanVB where
  column_names : List String
  variational_params_np : List Rat
  variational_sample : List (List Rat)
deriving DecidableEq, Repr

/-- Modelled from the spec: the mapping from parameter name to its
estimated posterior mean, derived from the column names and the aligned
estimates row (spec, section 3: a mapping from parameter name to its
estimated posterior mean). -/
def CmdStanVB.variational_params_dict (v : CmdStanVB) : List (String × Rat) :=
  v.column_names.zip v.variational_params_np

/-- Modelled from the spec: the two-dimensional table view of the same
estimates (spec, section 3: a two-dimensional numeric table/array view of
the same), a one-row table aligned with `column_names`. -/
def CmdStanVB.variational_params_pd (v : CmdStanVB) : List (List Rat) :=
  [v.variational_params_np]

/-- A value read from one of the accessor properties of the result
object. -/
inductive VBValue where
  | cols (cs : List String)
  | dict (d : List (String × Rat))
  | arr (t : List (List Rat))
deriving DecidableEq, Repr

/-- The accessor property names exposed by the result object, as listed in
the notebook. -/
def CmdStanVB.propertyNames : List String :=
  ["column_names", "variational_params_dict", "variational_params_np",
   "variational_params_pd", "variational_sample"]

/-- Reading an accessor property of the result object by name; names
outside the exposed surface read as `none`. -/
def CmdStanVB.read (v : CmdStanVB) (p : String) : Option VBValue :=
  if p = "column_names" then some (.cols v.column_names)
  else if p = "variational_params_dict" then some (.dict v.variational_params_dict)
  else if p = "variational_params_np" then some (.arr [v.variational_params_np])
  else if p = "variational_params_pd" then some (.arr v.variational_params_pd)
  else if p = "variational_sample" then some (.arr v.variational_sample)
  else none

/-- Reading a property as a state-passing operation: the read returns the
value together with the (unmodified) result object. -/
def CmdStanVB.readSt (p : String) (v : CmdStanVB) : Option VBValue × CmdStanVB :=
  (v.read p, v)

/-- The result object built from a convergent engine run: column names in
the engine output order, estimates aligned with them, and the sample. -/
def vbOf (o : EngineOutput) : CmdStanVB :=
  { column_names := o.header
    variational_params_np := o.estimates
    variational_sample := o.draws }

/-- Modelled from the spec: the outcome of the variational operation on one
engine run.  If the external algorithm converged the call returns the
populated result object; otherwise it raises a runtime error (spec,
sections 4 and 7).  The implementing method `CmdStanModel.variational` is
absent from the repository source. -/
def runVariational (o : EngineOutput) : Except RuntimeError CmdStanVB :=
  if o.converged then .ok (vbOf o)
  else .error ⟨"The algorithm may not have converged"⟩

/-- Modelled from the spec: the model handle constructed from a
model-specification file path (notebook cell 2: `CmdStanModel(stan_file=...)`);
the class is absent from the repository source. -/
structure CmdStanModel where
  stan_file : String
deriving DecidableEq, Repr

/-- Modelled from the spec: the external engine as an opaque behaviour,
mapping a model-specification file path and an optional data file path to
the output of one run; plus the install path returned by
`cmdstan_path()`. -/
structure Engine where
  cmdstan_path : String
  run : String → Option String → EngineOutput

/-- Modelled from the spec: the `variational` method of the model handle,
invoking the external engine on the model specification and data file and
interpreting convergence as in `runVariational`. -/
def CmdStanModel.variational (eng : Engine) (m : CmdStanModel)
    (data : Option String) : Except RuntimeError CmdStanVB :=
  runVariational (eng.run m.stan_file data)

/-- Modelled from the spec: a concrete convergent run of the engine for the
known-good bernoulli example, with the bookkeeping columns and the single
parameter `theta` of that model. -/
def bernoulliOutput : EngineOutput :=
  { converged := true
    bookkeeping_columns := ["lp__", "log_p__", "log_g__"]
    parameter_names := ["theta"]
    estimates := [0, 0, 0, 1/4]
    draws := [[-7, 0, 0, 1/4], [-7, 0, 0, 3/10]] }

/-- The result object of the known-good bernoulli run. -/
def bernoulliVB : CmdStanVB := vbOf bernoulliOutput

/-- Modelled from the spec: a concrete non-convergent run of the engine,
for the failure demonstration. -/
def failOutput : EngineOutput :=
  { converged := false
    bookkeeping_columns := ["lp__", "log_p__", "log_g__"]
    parameter_names := ["mu"]
    estimates := []
    draws := [] }

/-- Modelled from the spec: an engine whose runs converge (the bernoulli
example behaviour). -/
def goodEngine : Engine :=
  { cmdstan_path := "/opt/cmdstan"
    run := fun _ _ => bernoulliOutput }

/-- Modelled from the spec: an engine whose runs fail to converge. -/
def badEngine : Engine :=
  { cmdstan_path := "/opt/cmdstan"
    run := fun _ _ => failOutput }

/-!
Embedding of the notebook code cells.  Cell 2 builds the bernoulli model
and binds `vi`; cell 8 is the failure demonstration
(`fail_stan = os.path.join(datafiles_path, 'variational', 'eta_should_fail.stan')`,
`fail_model = CmdStanModel(stan_file=fail_stan)`, `vi = model.variational()`).
Evaluation threads a counter of variational invocations performed, so that
statements about which code ran before an error are expressible.
-/

/-- A Python value occurring in the notebook cells. -/
inductive PyVal where
  | str (s : String)
  | modelHandle (stan_file : String)
  | vbResult (v : CmdStanVB)
deriving DecidableEq, Repr

/-- A Python exception occurring in the notebook cells. -/
inductive PyError where
  | nameError (x : String)
  | typeError (msg : String)
  | runtimeError (msg : String)
deriving DecidableEq, Repr

/-- The interpreter environment: bindings introduced by assignments, newest
first (Python rebinding shadows the older binding). -/
abbrev Env := List (String × PyVal)

/-- The expressions occurring in the notebook code cells. -/
inductive Expr where
  | lit (s : String)
  | name (x : String)
  | joinPath (a b : Expr)
  | cmdstanPathCall
  | mkModel (stanFile : Expr)
  | callVariational0 (recv : String)
  | callVariationalData (recv : String) (data : Expr)
deriving DecidableEq, Repr

/-- The statements occurring in the notebook code cells. -/
inductive Stmt where
  | assign (x : String) (e : Expr)
deriving DecidableEq, Repr

/-- Expression evaluation.  Name lookup of an unbound name raises a
`NameError`; `recv.variational(...)` resolves `recv`, evaluates the data
argument if present, then performs one engine invocation (incrementing the
counter) and raises a `RuntimeError` exactly when `runVariational` does. -/
def evalE (eng : Engine) (env : Env) : Expr → Nat → Except PyError PyVal × Nat
  | .lit s, k => (.ok (.str s), k)
  | .name x, k =>
    match env.lookup x with
    | some v => (.ok v, k)
    | none => (.error (.nameError x), k)
  | .cmdstanPathCall, k => (.ok (.str eng.cmdstan_path), k)
  | .joinPath a b, k =>
    match evalE eng env a k with
    | (.ok (.str s1), k1) =>
      match evalE eng env b k1 with
      | (.ok (.str s2), k2) => (.ok (.str (s1 ++ "/" ++ s2)), k2)
      | (.ok _, k2) => (.error (.typeError "join expects strings"), k2)
      | (.error err, k2) => (.error err, k2)
    | (.ok _, k1) => (.error (.typeError "join expects strings"), k1)
    | (.error err, k1) => (.error err, k1)
  | .mkModel e, k =>
    match evalE eng env e k with
    | (.ok (.str sf), k1) => (.ok (.modelHandle sf), k1)
    | (.ok _, k1) => (.error (.typeError "stan_file expects a path string"), k1)
    | (.error err, k1) => (.error err, k1)
  | .callVariational0 recv, k =>
    match env.lookup recv with
    | none => (.error (.nameError recv), k)
    | some (.modelHandle sf) =>
      match CmdStanModel.variational eng ⟨sf⟩ none with
      | .ok v => (.ok (.vbResult v), k + 1)
      | .error e => (.error (.runtimeError e.message), k + 1)
    | some _ => (.error (.typeError "object has no method variational"), k)
  | .callVariationalData recv de, k =>
    match env.lookup recv with
    | none => (.error (.nameError recv), k)
    | some (.modelHandle sf) =>
      match evalE eng env de k with
      | (.ok (.str d), k1) =>
        match CmdStanModel.variational eng ⟨sf⟩ (some d) with
        | .ok v => (.ok (.vbResult v), k1 + 1)
        | .error e => (.error (.runtimeError e.message), k1 + 1)
      | (.ok _, k1) => (.error (.typeError "data expects a path string"), k1)
      | (.error err, k1) => (.error err, k1)
    | some _ => (.error (.typeError "object has no method variational"), k)

/-- Sequential statement execution: an assignment binds its target only
after the right-hand side evaluates; the first exception stops the cell
with the environment as it was before the failing statement. -/
def runStmts (eng : Engine) : Env → List Stmt → Nat → Env × Option PyError × Nat
  | env, [], k => (env, none, k)
  | env, .assign x e :: rest, k =>
    match evalE eng env e k with
    | (.ok v, k1) => runStmts eng ((x, v) :: env) rest k1
    | (.error err, k1) => (env, some err, k1)

/-- The statements of notebook cell 2 (construct the bernoulli model and
run the variational method, binding `vi`).  The imported module and
function names are embedded as dedicated expression forms. -/
def cell2Stmts : List Stmt :=
  [ .assign "bernoulli_dir"
      (.joinPath (.joinPath .cmdstanPathCall (.lit "examples")) (.lit "bernoulli"))
  , .assign "bernoulli_path"
      (.joinPath (.name "bernoulli_dir") (.lit "bernoulli.stan"))
  , .assign "bernoulli_data"
      (.joinPath (.name "bernoulli_dir") (.lit "bernoulli.data.json"))
  , .assign "bernoulli_model" (.mkModel (.name "bernoulli_path"))
  , .assign "vi" (.callVariationalData "bernoulli_model" (.name "bernoulli_data")) ]

/-- The statements of notebook cell 8, exactly as written in the notebook:
the names `datafiles_path` and `model` are used but never defined by any
cell. -/
def cell8Stmts : List Stmt :=
  [ .assign "fail_stan"
      (.joinPath (.joinPath (.name "datafiles_path") (.lit "variational"))
        (.lit "eta_should_fail.stan"))
  , .assign "fail_model" (.mkModel (.name "fail_stan"))
  , .assign "vi" (.callVariational0 "model") ]

/-- Executing cell 2 from the initial (empty) environment with the
convergent engine. -/
def cell2Run : Env × Option PyError × Nat := runStmts goodEngine [] cell2Stmts 0

/-- The environment after cell 2. -/
def cell2Env : Env := cell2Run.1

/-- Executing cell 8 in the environment left by cell 2. -/
def cell8Run : Env × Option PyError × Nat :=
  runStmts goodEngine cell2Env cell8Stmts cell2Run.2.2

/-!
Helper lemmas shared by the claim theorems.
-/

/-- Looking a key up in the zip of keys with values returns the value at
the index of the first occurrence of the key, when the two lists have equal
length. -/
theorem lookup_zip_eq_getElem_indexOf (ks : List String) (vs : List Rat)
    (k : String) (hlen : ks.length = vs.length) (hmem : k ∈ ks) :
    (ks.zip vs).lookup k = vs[ks.indexOf k]? := by
  induction ks generalizing vs with
  | nil => cases hmem
  | cons a ks ih =>
    cases vs with
    | nil => simp at hlen
    | cons b vs =>
      rw [List.zip_cons_cons, List.lookup_cons]
      by_cases hk : k = a
      · subst hk
        simp [List.indexOf_cons_self]
      · have hmem' : k ∈ ks := (List.mem_cons.mp hmem).resolve_left hk
        have hlen' : ks.length = vs.length := by simpa using hlen
        have hbeq : (k == a) = false := beq_eq_false_iff_ne.mpr hk
        rw [hbeq, List.indexOf_cons_ne _ (Ne.symm hk)]
        simpa using ih vs hlen' hmem'

/-- A successful variational outcome is exactly the result object built
from the engine output. -/
theorem runVariational_ok_eq (o : EngineOutput) (v : CmdStanVB)
    (h : runVariational o = .ok v) : v = vbOf o := by
  unfold runVariational at h
  split at h
  · injection h with h
    exact h.symm
  · exact Except.noConfusion h

/-!
Claim theorems.
-/

/-- C1: for every invocation of the variational operation, the call raises
a `RuntimeError` if and only if the external algorithm fails to converge;
when the algorithm converges, the call does not raise and returns the
populated result object. -/
theorem variational_raises_iff_nonconvergence (o : EngineOutput) :
    ((∃ e : RuntimeError, runVariational o = .error e) ↔ o.converged = false)
    ∧ (o.converged = true → runVariational o = .ok (vbOf o)) := by
  cases h : o.converged <;> simp [runVariational, h]

/-- Witness for C1: the convergent bernoulli run returns the populated
result and the non-convergent run raises. -/
theorem variational_raises_iff_nonconvergence_wit :
    runVariational bernoulliOutput = .ok (vbOf bernoulliOutput)
    ∧ ∃ e : RuntimeError, runVariational failOutput = .error e :=
  ⟨(variational_raises_iff_nonconvergence bernoulliOutput).2 rfl,
   (variational_raises_iff_nonconvergence failOutput).1.mpr rfl⟩

/-- C2: the variational call on the known-good bernoulli specification
returns a non-empty result object exposing exactly the five documented
property names. -/
theorem bernoulli_variational_result_surface :
    runVariational bernoulliOutput = .ok bernoulliVB
    ∧ bernoulliVB.column_names ≠ []
    ∧ bernoulliVB.variational_params_np ≠ []
    ∧ bernoulliVB.variational_sample ≠ []
    ∧ ∀ p : String, (bernoulliVB.read p).isSome ↔ p ∈ CmdStanVB.propertyNames := by
  refine ⟨rfl, by decide, by decide, by decide, ?_⟩
  intro p
  unfold CmdStanVB.read CmdStanVB.propertyNames
  split_ifs with h1 h2 h3 h4 h5 <;> simp_all

/-- Witness for C2: a documented property reads as present and an
undocumented name does not. -/
theorem bernoulli_variational_result_surface_wit :
    (bernoulliVB.read "variational_params_dict").isSome
    ∧ ¬ (bernoulliVB.read "draws").isSome :=
  ⟨(bernoulli_variational_result_surface.2.2.2.2 "variational_params_dict").mpr (by decide),
   fun h => absurd ((bernoulli_variational_result_surface.2.2.2.2 "draws").mp h) (by decide)⟩

/-- C3 (code evaluation at the failing input): executing the failure
demonstration cell (cell 8) after the preceding cells raises a `NameError`,
not a `RuntimeError` from the variational call, and performs no variational
invocation at all: the cell as written never reaches the variational
operation on the failing model. -/
theorem cell8_raises_NameError_not_on_variational :
    cell8Run.2.1 = some (PyError.nameError "datafiles_path")
    ∧ (∀ m : String, cell8Run.2.1 ≠ some (PyError.runtimeError m))
    ∧ cell8Run.2.2 = cell2Run.2.2 := by
  have h : cell8Run.2.1 = some (PyError.nameError "datafiles_path") := by decide
  refine ⟨h, ?_, by decide⟩
  intro m
  rw [h]
  simp

/-- C4: on every result object of a successful variational call whose
engine output has one estimate per output column, the per-parameter mean
mapping agrees with the array and table views: for every column name, the
value the mapping associates to that name is the entry of the estimates row
at the index of that column, and the table view is exactly that row. -/
theorem params_dict_matches_array_views (o : EngineOutput) (v : CmdStanVB)
    (hok : runVariational o = .ok v)
    (hlen : o.estimates.length = o.header.length)
    (name : String) (hmem : name ∈ v.column_names) :
    v.variational_params_dict.lookup name
      = v.variational_params_np[v.column_names.indexOf name]?
    ∧ v.variational_params_pd = [v.variational_params_np] := by
  have hv : v = vbOf o := runVariational_ok_eq o v hok
  subst hv
  refine ⟨?_, rfl⟩
  exact lookup_zip_eq_getElem_indexOf _ _ _ hlen.symm hmem

/-- Witness for C4: the bernoulli result, at the parameter `theta`. -/
theorem params_dict_matches_array_views_wit :
    bernoulliVB.variational_params_dict.lookup "theta"
      = bernoulliVB.variational_params_np[bernoulliVB.column_names.indexOf "theta"]? :=
  (params_dict_matches_array_views bernoulliOutput bernoulliVB rfl (by decide)
    "theta" (by decide)).1

/-- C5: no populated result object is observable from a run for which the
engine did not report convergence: a successful variational outcome implies
the engine reported convergence. -/
theorem result_only_if_converged (o : EngineOutput) (v : CmdStanVB)
    (h : runVariational o = .ok v) : o.converged = true := by
  by_contra hc
  rw [Bool.not_eq_true] at hc
  simp [runVariational, hc] at h

/-- Witness for C5: the bernoulli run. -/
theorem result_only_if_converged_wit : bernoulliOutput.converged = true :=
  result_only_if_converged bernoulliOutput bernoulliVB rfl

/-- C6: on every result object of a successful variational call, the
`column_names` property is the ordered sequence of output columns in the
engine output order (bookkeeping columns then parameter names), and it
contains every model parameter name and every bookkeeping column. -/
theorem column_names_order_and_membership (o : EngineOutput) (v : CmdStanVB)
    (h : runVariational o = .ok v) :
    v.column_names = o.bookkeeping_columns ++ o.parameter_names
    ∧ (∀ p ∈ o.parameter_names, p ∈ v.column_names)
    ∧ (∀ b ∈ o.bookkeeping_columns, b ∈ v.column_names) := by
  have hv : v = vbOf o := runVariational_ok_eq o v h
  subst hv
  refine ⟨rfl, ?_, ?_⟩ <;> intro x hx <;>
    simp [vbOf, EngineOutput.header, hx]

/-- Witness for C6: the bernoulli result contains `theta` and `lp__`. -/
theorem column_names_order_and_membership_wit :
    bernoulliVB.column_names
      = bernoulliOutput.bookkeeping_columns ++ bernoulliOutput.parameter_names
    ∧ "theta" ∈ bernoulliVB.column_names ∧ "lp__" ∈ bernoulliVB.column_names :=
  ⟨(column_names_order_and_membership bernoulliOutput bernoulliVB rfl).1,
   (column_names_order_and_membership bernoulliOutput bernoulliVB rfl).2.1
     "theta" (by decide),
   (column_names_order_and_membership bernoulliOutput bernoulliVB rfl).2.2
     "lp__" (by decide)⟩

/-- C7: the accessor properties are read-only: reading a property leaves
the result object unchanged, so two reads of the same property on the same
result object return equal values. -/
theorem accessor_reads_are_readonly (v : CmdStanVB) (p : String) :
    (CmdStanVB.readSt p v).2 = v
    ∧ (CmdStanVB.readSt p ((CmdStanVB.readSt p v).2)).1 = (CmdStanVB.readSt p v).1 :=
  ⟨rfl, rfl⟩

/-- C8: the externally visible surface is the call taking a
model-specification file path and a data file path: it returns the result
object when the engine run converges, and the same call raises the error in
the failure mode. -/
theorem surface_call_outcomes (eng : Engine) (sf df : String) :
    ((eng.run sf (some df)).converged = true →
      CmdStanModel.variational eng ⟨sf⟩ (some df) = .ok (vbOf (eng.run sf (some df))))
    ∧ ((eng.run sf (some df)).converged = false →
      ∃ e : RuntimeError, CmdStanModel.variational eng ⟨sf⟩ (some df) = .error e) := by
  constructor <;> intro h <;> simp [CmdStanModel.variational, runVariational, h]

/-- Witness for C8: the convergent engine returns the result, the
non-convergent engine raises, through the same call. -/
theorem surface_call_outcomes_wit :
    CmdStanModel.variational goodEngine ⟨"/opt/cmdstan/examples/bernoulli/bernoulli.stan"⟩
      (some "/opt/cmdstan/examples/bernoulli/bernoulli.data.json")
      = .ok (vbOf bernoulliOutput)
    ∧ ∃ e : RuntimeError,
      CmdStanModel.variational badEngine ⟨"eta_should_fail.stan"⟩ (some "fail.data.json")
        = .error e :=
  ⟨(surface_call_outcomes goodEngine "/opt/cmdstan/examples/bernoulli/bernoulli.stan"
      "/opt/cmdstan/examples/bernoulli/bernoulli.data.json").1 rfl,
   (surface_call_outcomes badEngine "eta_should_fail.stan" "fail.data.json").2 rfl⟩

/-- C9: executed in order, cell 2 succeeds and leaves the names
`datafiles_path` and `model` unbound; cell 8 then raises
`NameError` for `datafiles_path`, and performs zero variational
invocations, so the documented converge-failure `RuntimeError` path is
never reached by the notebook as written. -/
theorem cell8_NameError_before_any_variational :
    cell2Run.2.1 = none
    ∧ cell2Env.lookup "datafiles_path" = none
    ∧ cell2Env.lookup "model" = none
    ∧ cell8Run.2.1 = some (PyError.nameError "datafiles_path")
    ∧ cell8Run.2.2 = cell2Run.2.2 := by decide

/-- C10: when the right-hand side of an assignment raises, the assignment
does not take place: the environment is unchanged, and in particular the
binding of the assigned name produced earlier is unchanged after the
failure. -/
theorem assign_on_error_preserves_vi_binding (eng : Engine) (env : Env)
    (x : String) (e : Expr) (k : Nat) (err : PyError)
    (h : (evalE eng env e k).1 = .error err) :
    (runStmts eng env [Stmt.assign x e] k).1 = env
    ∧ ((runStmts eng env [Stmt.assign x e] k).1).lookup x = env.lookup x := by
  have hrun : runStmts eng env [Stmt.assign x e] k
      = match evalE eng env e k with
        | (.ok v, k1) => runStmts eng ((x, v) :: env) [] k1
        | (.error err2, k1) => (env, some err2, k1) := rfl
  rw [hrun]
  cases he : evalE eng env e k with
  | mk r k1 =>
    cases r with
    | ok v =>
      rw [he] at h
      exact Except.noConfusion h
    | error e2 => exact ⟨rfl, rfl⟩

/-- Witness for C10: the final statement of cell 8
(`vi = model.variational()`) raises in the environment left by cell 2, and
the binding of `vi` from the earlier successful variational call is
unchanged. -/
theorem assign_on_error_preserves_vi_binding_wit :
    (evalE goodEngine cell2Env (Expr.callVariational0 "model") 1).1
      = .error (PyError.nameError "model")
    ∧ ((runStmts goodEngine cell2Env
        [Stmt.assign "vi" (Expr.callVariational0 "model")] 1).1).lookup "vi"
      = cell2Env.lookup "vi" :=
  ⟨rfl,
   (assign_on_error_preserves_vi_binding goodEngine cell2Env "vi"
     (Expr.callVariational0 "model") 1 (PyError.nameError "model") rfl).2⟩
